import Mathlib

/-!
Verification of the instagram-unfollower ledger / unfollow-run core.

The Python source (`unfollower.py`, `config.py`) is shallowly embedded:
CSV rows become a `Row` structure over strings, the target-selection and
budget logic of `run_unfollow` become pure list functions, and the
per-target processing loop becomes a recursive function driven by an
environment `Nat → StepEnv` describing what the browser/actuator does at
each step (outcome string, timestamp, whether the driver URL is a login
page).  Python's `str.startswith` is embedded as a character-list prefix
test, and `str.strip` as whitespace trimming on the character list.
-/

/-- `config.py`: `STATUS_KEEP = "keep"`. -/
def STATUS_KEEP : String := "keep"

/-- `config.py`: `STATUS_UNFOLLOW = "unfollow"`. -/
def STATUS_UNFOLLOW : String := "unfollow"

/-- `config.py`: `STATUS_UNFOLLOWED = "unfollowed"`. -/
def STATUS_UNFOLLOWED : String := "unfollowed"

/-- `config.py`: `STATUS_SKIPPED = "skipped"`. -/
def STATUS_SKIPPED : String := "skipped"

/-- `config.py`: `CSV_COLUMNS` (column order of the ledger file). -/
def CSV_COLUMNS : List String :=
  ["username", "user_id", "full_name", "follows_you", "status", "date_unfollowed"]

/-- One CSV ledger row (`csv.DictReader` dict with the `CSV_COLUMNS` keys). -/
structure Row where
  username : String
  user_id : String
  full_name : String
  follows_you : String
  status : String
  date_unfollowed : String
deriving Repr, DecidableEq, Inhabited

/-- Python `s.startswith(p)`: `p` is a character prefix of `s`. -/
def pyStartsWith (s p : String) : Bool :=
  p.data.isPrefixOf s.data

/-- Python `s.strip()`: drop leading and trailing whitespace characters. -/
def pyStrip (s : String) : String :=
  ⟨((s.data.dropWhile Char.isWhitespace).reverse.dropWhile Char.isWhitespace).reverse⟩

/-- `unfollower.py` `count_unfollowed_today`: number of rows with
`status == STATUS_UNFOLLOWED` whose `date_unfollowed` starts with today's
ISO date string. -/
def count_unfollowed_today (today : String) (rows : List Row) : Nat :=
  rows.countP fun r =>
    r.status == STATUS_UNFOLLOWED && pyStartsWith r.date_unfollowed today

/-- Eligibility filter of `run_unfollow` line 178-181:
`r["status"] in (STATUS_UNFOLLOW, "")`. -/
def isEligible (r : Row) : Bool :=
  r.status == STATUS_UNFOLLOW || r.status == ""

/-- `r.get("follows_you", "") == "no"` (line 184). -/
def isNonFollower (r : Row) : Bool :=
  r.follows_you == "no"

/-- `r.get("follows_you", "") == "yes"` (line 185). -/
def isMutual (r : Row) : Bool :=
  r.follows_you == "yes"

/-- `r.get("follows_you", "") not in ("yes", "no")` (line 197). -/
def isUnknownFY (r : Row) : Bool :=
  !(r.follows_you == "yes") && !(r.follows_you == "no")

/-- The three selection modes of `run_unfollow` (`mode=None` is `all`). -/
inductive Mode where
  | all
  | nonFollowers
  | mutualNotKeep
deriving Repr, DecidableEq

/-- Target selection of `run_unfollow` lines 177-199, carried out over the
rows paired with their positions in the ledger (the Python code mutates
the selected dicts in place inside `rows`; the position records which
ledger slot a queue entry refers to). -/
def selectPairs (mode : Mode) (rows : List Row) : List (Nat × Row) :=
  let all_targets := rows.enum.filter fun p => isEligible p.2
  let non_followers := all_targets.filter fun p => isNonFollower p.2
  let mutuals := all_targets.filter fun p => isMutual p.2
  match mode with
  | Mode.nonFollowers => non_followers
  | Mode.mutualNotKeep => mutuals
  | Mode.all =>
      non_followers ++ mutuals ++ (all_targets.filter fun p => isUnknownFY p.2)

/-- The ordered target list (the rows of `targets` in `run_unfollow`). -/
def selectTargets (mode : Mode) (rows : List Row) : List Row :=
  (selectPairs mode rows).map Prod.snd

/-- `to_process = targets[:remaining_budget]` (line 205), as rows. -/
def toProcessQueue (mode : Mode) (budget : Int) (rows : List Row) : List Row :=
  ((selectPairs mode rows).take budget.toNat).map Prod.snd

/-- Outcome-to-ledger mapping of `run_unfollow` lines 245-266: the four
result strings of `_find_and_click_unfollow` update the target row; an
unrecognized string matches no branch and leaves the row unchanged. -/
def applyResult (ts : String) (result : String) (r : Row) : Row :=
  if result == "success" then
    { r with status := STATUS_UNFOLLOWED, date_unfollowed := ts }
  else if result == "already_unfollowed" then
    { r with status := STATUS_UNFOLLOWED, date_unfollowed := ts }
  else if result == "not_found" then
    { r with status := STATUS_SKIPPED, date_unfollowed := ts }
  else if result == "dialog_failed" then
    { r with status := STATUS_SKIPPED, date_unfollowed := ts }
  else r

/-- The generic-exception handler (lines 276-277) marks the row skipped
and stamps it. -/
def markSkipped (ts : String) (r : Row) : Row :=
  { r with status := STATUS_SKIPPED, date_unfollowed := ts }

/-- What the environment does at one loop step: the actuation call either
returns a result string, raises `KeyboardInterrupt`, or raises an
unexpected exception. -/
inductive StepAct where
  | ok (result : String)
  | keyboardInterrupt
  | error
deriving Repr, DecidableEq

/-- Per-step environment: the actuation behaviour, the timestamp
`datetime.now().isoformat(timespec="seconds")` produced at that step, and
whether `"login" in driver.current_url` holds when the exception handler
inspects it. -/
structure StepEnv where
  act : StepAct
  ts : String
  loggedOut : Bool

/-- How a run of `run_unfollow` ended (distinguished by its terminal
message / exit path in the source). -/
inductive RunSignal where
  | limitReached
  | nothingToDo
  | dryRunDone
  | completed
  | interrupted
  | sessionExpired
deriving Repr, DecidableEq

/-- Observable result of a run: final ledger rows, termination signal,
number of actuation calls (`_find_and_click_unfollow` invocations),
number of `save_csv` calls, and the annotated entries printed by the
dry-run enumeration. -/
structure RunResult where
  rows : List Row
  signal : RunSignal
  acts : Nat
  saves : Nat
  preview : List (String × String)
deriving Repr, DecidableEq

/-- The processing loop of `run_unfollow` lines 237-294 over the ledger
positions of the work queue.  Normal outcomes update the target slot and
save; `KeyboardInterrupt` saves and exits; an unexpected exception marks
the slot skipped, and stops the run (after saving) exactly when the
driver URL is a login page, otherwise the loop continues and saves. -/
def runLoop (env : Nat → StepEnv) : List Row → List Nat → Nat → RunResult
  | rows, [], _ => ⟨rows, RunSignal.completed, 0, 0, []⟩
  | rows, i :: rest, k =>
    let e := env k
    match e.act with
    | StepAct.ok result =>
        let rows' := rows.set i (applyResult e.ts result (rows.getD i default))
        let r := runLoop env rows' rest (k + 1)
        ⟨r.rows, r.signal, r.acts + 1, r.saves + 1, []⟩
    | StepAct.keyboardInterrupt => ⟨rows, RunSignal.interrupted, 1, 1, []⟩
    | StepAct.error =>
        let rows' := rows.set i (markSkipped e.ts (rows.getD i default))
        if e.loggedOut then ⟨rows', RunSignal.sessionExpired, 1, 1, []⟩
        else
          let r := runLoop env rows' rest (k + 1)
          ⟨r.rows, r.signal, r.acts + 1, r.saves + 1, []⟩

/-- Dry-run annotation (lines 224-230): follows-you tag per entry. -/
def followTag (r : Row) : String :=
  if r.follows_you == "yes" then " (follows you)"
  else if r.follows_you == "no" then " (non-follower)"
  else ""

/-- CSV field quoting of `csv.writer` (default dialect, QUOTE_MINIMAL):
a field is quoted when it contains a delimiter, quote or line break. -/
def needsQuote (s : String) : Bool :=
  s.data.any fun c => c == ',' || c == '"' || c == '\n' || c == '\r'

/-- Double every quote character inside a quoted CSV field. -/
def escapeQuotes (s : String) : String :=
  ⟨s.data.foldr (fun c acc => if c == '"' then '"' :: '"' :: acc else c :: acc) []⟩

/-- Serialize one CSV field with minimal quoting. -/
def csvField (s : String) : String :=
  if needsQuote s then "\"" ++ escapeQuotes s ++ "\"" else s

/-- Concatenation of a list of strings. -/
def concatAll (l : List String) : String :=
  l.foldr (fun a b => a ++ b) ""

/-- One CSV record line in `CSV_COLUMNS` order, `\r\n`-terminated
(`csv.writer` default line terminator). -/
def csvLine (fields : List String) : String :=
  concatAll (List.intersperse "," (fields.map csvField)) ++ "\r\n"

/-- The record line written for one ledger row by `writer.writerows`. -/
def rowLine (r : Row) : String :=
  csvLine [r.username, r.user_id, r.full_name, r.follows_you, r.status,
           r.date_unfollowed]

/-- `save_csv` (lines 32-37): the sequence of chunks written to the file
opened with mode `"w"` — the header line, then one line per row. -/
def saveChunks (rows : List Row) : List String :=
  csvLine CSV_COLUMNS :: rows.map rowLine

/-- File content observable after `save_csv` crashed having completed `k`
of its writes: opening with `"w"` truncates, so the content is the
concatenation of the first `k` chunks. -/
def fileAfterCrash (rows : List Row) (k : Nat) : String :=
  concatAll ((saveChunks rows).take k)

/-- File content after a completed `save_csv rows`. -/
def fileAfterSave (rows : List Row) : String :=
  concatAll (saveChunks rows)

/-- Environment of one `_find_and_click_unfollow` call: the (readable)
button texts of the profile page, whether the strategy-1 XPath queries
and the strategy-2 broad text scan manage to click, whether
`driver.execute_script` raises, what the script's (discarded) return
value is, and the button texts at the final verification scan. -/
structure Ui where
  buttonTexts : List String
  s1Clicks : Bool
  s2Clicks : Bool
  scriptThrows : Bool
  scriptFinds : Bool
  finalButtonTexts : List String
deriving Repr, DecidableEq

/-- Line 63-68: is there a button whose stripped text is `Following` or
`Requested`? -/
def hasFollowingBtn (ui : Ui) : Bool :=
  ui.buttonTexts.any fun t => pyStrip t == "Following" || pyStrip t == "Requested"

/-- Lines 74-79: is there a button whose stripped text is `Follow`? -/
def hasFollowBtn (texts : List String) : Bool :=
  texts.any fun t => pyStrip t == "Follow"

/-- `_find_and_click_unfollow` (lines 50-153): classify the outcome of
one per-target actuation.  Strategy 2 runs only if strategy 1 did not
click; strategy 3 (`execute_script`) runs only if neither clicked, and
sets `unfollow_clicked = True` whenever the call returns normally — its
return value (`ui.scriptFinds`) is discarded.  The final verification
scan returns `"success"` whether or not a `Follow` button is found. -/
def findAndClickUnfollow (ui : Ui) : String :=
  if !(hasFollowingBtn ui) then
    if hasFollowBtn ui.buttonTexts then "already_unfollowed" else "not_found"
  else
    let clicked1 := ui.s1Clicks
    let clicked2 := clicked1 || ui.s2Clicks
    let clicked3 := clicked2 || !ui.scriptThrows
    if !clicked3 then "dialog_failed"
    else if hasFollowBtn ui.finalButtonTexts then "success" else "success"

/-- `run_unfollow` (lines 156-298): budget check, target selection,
dry-run enumeration, then the processing loop.  `limit` is
`DAILY_UNFOLLOW_LIMIT`, `today` today's ISO date string. -/
def run_unfollow (limit : Int) (today : String) (env : Nat → StepEnv)
    (dry_run : Bool) (mode : Mode) (rows : List Row) : RunResult :=
  let already_today := count_unfollowed_today today rows
  let remaining_budget : Int := limit - already_today
  if remaining_budget ≤ 0 then ⟨rows, RunSignal.limitReached, 0, 0, []⟩
  else
    let targets := selectPairs mode rows
    if targets.isEmpty then ⟨rows, RunSignal.nothingToDo, 0, 0, []⟩
    else
      let to_process := targets.take remaining_budget.toNat
      if dry_run then
        ⟨rows, RunSignal.dryRunDone, 0, 0,
          to_process.map fun p => (p.2.username, followTag p.2)⟩
      else runLoop env rows (to_process.map Prod.fst) 0

/-- Priority rank assigned by the `ALL`-mode ordering: non-followers
first, then mutuals, then unknown `follows_you` values. -/
def rank (r : Row) : Nat :=
  if isNonFollower r then 0 else if isMutual r then 1 else 2

/-- Row of the spec scenario: `alice`, blank status, non-follower. -/
def aliceRow : Row :=
  ⟨"alice", "1", "Alice", "no", "", ""⟩

/-- Row of the spec scenario: `bob`, marked keep, mutual. -/
def bobRow : Row :=
  ⟨"bob", "2", "Bob", "yes", "keep", ""⟩

/-- Row of the spec scenario: `carol`, marked unfollow, mutual. -/
def carolRow : Row :=
  ⟨"carol", "3", "Carol", "yes", "unfollow", ""⟩

/-- A second eligible non-follower row. -/
def daveRow : Row :=
  ⟨"dave", "4", "Dave", "no", "unfollow", ""⟩

/-- The three-row ledger of the spec scenario. -/
def demoRows : List Row :=
  [aliceRow, bobRow, carolRow]

/-- A trivial step environment for witnesses. -/
def envNone : Nat → StepEnv :=
  fun _ => ⟨StepAct.error, "2026-10-12T10:00:00", false⟩

/-- A step environment whose actuations all report `"success"` while the
driver URL is a login page throughout. -/
def envAllOk : Nat → StepEnv :=
  fun _ => ⟨StepAct.ok "success", "2026-10-12T10:00:00", true⟩

/-- A step environment whose actuations all raise an unexpected
exception with the driver redirected to the login page. -/
def envErr : Nat → StepEnv :=
  fun _ => ⟨StepAct.error, "2026-10-12T10:00:00", true⟩

/-- Ledger row invariant of the spec: an `unfollowed` or `skipped` row
has a non-empty `date_unfollowed`. -/
abbrev RowInv (r : Row) : Prop :=
  (r.status = STATUS_UNFOLLOWED ∨ r.status = STATUS_SKIPPED) →
    r.date_unfollowed ≠ ""

/-- A profile page showing a `Following` button where no unfollow click
succeeds by strategies 1 and 2 and the scripted scan returns normally
without finding an `Unfollow` element. -/
def uiScriptMiss : Ui :=
  ⟨["Following", "Message"], false, false, false, false, ["Message"]⟩

theorem map_snd_filter_enumFrom {α : Type} (p : α → Bool) (q : Nat × α → Bool)
    (hpq : ∀ x, q x = p x.2) (l : List α) :
    ∀ n : Nat,
      ((List.enumFrom n l).filter q).map Prod.snd = l.filter p := by
  induction l with
  | nil => intro n; rfl
  | cons a l ih =>
    intro n
    simp only [List.enumFrom_cons, List.filter_cons, hpq]
    by_cases h : p a
    · simp only [h, if_true, List.map_cons, ih]
    · simp only [h, Bool.false_eq_true, if_false, ih]

theorem map_snd_filter_enum {α : Type} (p : α → Bool) (q : Nat × α → Bool)
    (hpq : ∀ x, q x = p x.2) (l : List α) :
    ((l.enum.filter q).map Prod.snd) = l.filter p :=
  map_snd_filter_enumFrom p q hpq l 0

theorem countP_set_le {α : Type} (p : α → Bool) :
    ∀ (l : List α) (i : Nat) (x : α),
      (l.set i x).countP p ≤ l.countP p + 1 := by
  intro l
  induction l with
  | nil => intro i x; simp
  | cons a l ih =>
    intro i x
    cases i with
    | zero =>
      simp only [List.set_cons_zero, List.countP_cons]
      by_cases hx : p x <;> by_cases ha : p a <;> simp [hx, ha] <;> omega
    | succ n =>
      simp only [List.set_cons_succ, List.countP_cons]
      have h := ih n x
      omega

/-- C1: for every ledger and every mode, the truncated work queue
(`to_process = targets[:remaining_budget]`) has at most `remaining
budget` entries, and when the remaining budget is positive it has exactly
`min(eligible count for the mode, budget)` entries. -/
theorem toProcessQueue_length (mode : Mode) (budget : Int) (rows : List Row) :
    (toProcessQueue mode budget rows).length ≤ budget.toNat ∧
    (0 < budget →
      (toProcessQueue mode budget rows).length
        = min (selectTargets mode rows).length budget.toNat) := by
  constructor
  · simp only [toProcessQueue, List.length_map, List.length_take]
    exact Nat.min_le_left _ _
  · intro _
    simp only [toProcessQueue, selectTargets, List.length_map, List.length_take]
    exact Nat.min_comm _ _

/-- Witness for C1 on the spec's three-row scenario ledger. -/
theorem toProcessQueue_length_witness :
    (toProcessQueue Mode.all 2 demoRows).length ≤ (2 : Int).toNat ∧
    (0 < (2 : Int) →
      (toProcessQueue Mode.all 2 demoRows).length
        = min (selectTargets Mode.all demoRows).length (2 : Int).toNat) :=
  toProcessQueue_length Mode.all 2 demoRows

/-- C3: `count_unfollowed_today` counts exactly the rows whose status is
`"unfollowed"` and whose `date_unfollowed` has today's date string as a
prefix; every other row contributes nothing. -/
theorem count_unfollowed_today_spec (today : String) (r : Row) (rows : List Row) :
    count_unfollowed_today today ([] : List Row) = 0 ∧
    count_unfollowed_today today (r :: rows)
      = (if r.status = STATUS_UNFOLLOWED ∧ today.data <+: r.date_unfollowed.data
         then 1 else 0) + count_unfollowed_today today rows := by
  constructor
  · rfl
  · simp only [count_unfollowed_today, List.countP_cons, pyStartsWith]
    by_cases h1 : r.status = STATUS_UNFOLLOWED <;>
      by_cases h2 : today.data <+: r.date_unfollowed.data <;>
        simp [h1, h2, List.isPrefixOf_iff_prefix, Nat.add_comm]


theorem rank_le_two (r : Row) : rank r ≤ 2 := by
  unfold rank
  repeat' split
  all_goals omega

theorem rank_eq_zero_of_nf {r : Row} (h : isNonFollower r = true) : rank r = 0 := by
  simp [rank, h]

theorem notNf_of_mut {r : Row} (h : isMutual r = true) : isNonFollower r = false := by
  simp only [isMutual, beq_iff_eq] at h
  simp [isNonFollower, h]

theorem rank_eq_one_of_mut {r : Row} (h : isMutual r = true) : rank r = 1 := by
  simp [rank, notNf_of_mut h, h]

theorem unknown_split {r : Row} (h : isUnknownFY r = true) :
    isNonFollower r = false ∧ isMutual r = false := by
  simp only [isUnknownFY, Bool.and_eq_true, Bool.not_eq_true'] at h
  simp only [isNonFollower, isMutual]
  exact ⟨h.2, h.1⟩

theorem rank_eq_two_of_unknown {r : Row} (h : isUnknownFY r = true) : rank r = 2 := by
  obtain ⟨h1, h2⟩ := unknown_split h
  simp [rank, h1, h2]

theorem notMut_of_nf {r : Row} (h : isNonFollower r = true) : isMutual r = false := by
  simp only [isNonFollower, beq_iff_eq] at h
  simp [isMutual, h]

theorem notUnknown_of_nf {r : Row} (h : isNonFollower r = true) : isUnknownFY r = false := by
  simp only [isNonFollower, beq_iff_eq] at h
  simp [isUnknownFY, h]

theorem notUnknown_of_mut {r : Row} (h : isMutual r = true) : isUnknownFY r = false := by
  simp only [isMutual, beq_iff_eq] at h
  simp [isUnknownFY, h]

theorem selectAll_shape (rows : List Row) :
    selectTargets Mode.all rows
      = rows.filter (fun r => isNonFollower r && isEligible r)
        ++ rows.filter (fun r => isMutual r && isEligible r)
        ++ rows.filter (fun r => isUnknownFY r && isEligible r) := by
  have e1 := map_snd_filter_enum (fun r => isNonFollower r && isEligible r)
    (fun x => isNonFollower x.2 && isEligible x.2) (fun _ => rfl) rows
  have e2 := map_snd_filter_enum (fun r => isMutual r && isEligible r)
    (fun x => isMutual x.2 && isEligible x.2) (fun _ => rfl) rows
  have e3 := map_snd_filter_enum (fun r => isUnknownFY r && isEligible r)
    (fun x => isUnknownFY x.2 && isEligible x.2) (fun _ => rfl) rows
  simp only [selectTargets, selectPairs, List.map_append, List.filter_filter]
  rw [e1, e2, e3]

/-- C4: under `ALL` mode the work queue is ordered by priority rank
(non-followers, then mutuals, then unknown `follows_you` values), and
each of the three partitions of the queue consists of exactly the
eligible input rows of that partition in their original ledger order. -/
theorem selectAll_order (rows : List Row) :
    (selectTargets Mode.all rows).Pairwise (fun a b => rank a ≤ rank b) ∧
    (selectTargets Mode.all rows).filter isNonFollower
      = rows.filter (fun r => isEligible r && isNonFollower r) ∧
    (selectTargets Mode.all rows).filter isMutual
      = rows.filter (fun r => isEligible r && isMutual r) ∧
    (selectTargets Mode.all rows).filter isUnknownFY
      = rows.filter (fun r => isEligible r && isUnknownFY r) := by
  rw [selectAll_shape]
  have hnf : ∀ a ∈ rows.filter (fun r => isNonFollower r && isEligible r),
      isNonFollower a = true := by
    intro a ha
    have h := (List.mem_filter.mp ha).2
    simp only [Bool.and_eq_true] at h
    exact h.1
  have hmut : ∀ a ∈ rows.filter (fun r => isMutual r && isEligible r),
      isMutual a = true := by
    intro a ha
    have h := (List.mem_filter.mp ha).2
    simp only [Bool.and_eq_true] at h
    exact h.1
  have hunk : ∀ a ∈ rows.filter (fun r => isUnknownFY r && isEligible r),
      isUnknownFY a = true := by
    intro a ha
    have h := (List.mem_filter.mp ha).2
    simp only [Bool.and_eq_true] at h
    exact h.1
  refine ⟨?_, ?_, ?_, ?_⟩
  · rw [List.pairwise_append]
    refine ⟨?_, ?_, ?_⟩
    · rw [List.pairwise_append]
      refine ⟨?_, ?_, ?_⟩
      · exact List.pairwise_of_forall_mem_list fun a ha b hb => by
          rw [rank_eq_zero_of_nf (hnf a ha)]
          exact Nat.zero_le _
      · exact List.pairwise_of_forall_mem_list fun a ha b hb => by
          rw [rank_eq_one_of_mut (hmut a ha), rank_eq_one_of_mut (hmut b hb)]
      · intro a ha b hb
        rw [rank_eq_zero_of_nf (hnf a ha)]
        exact Nat.zero_le _
    · exact List.pairwise_of_forall_mem_list fun a ha b hb => by
        rw [rank_eq_two_of_unknown (hunk a ha), rank_eq_two_of_unknown (hunk b hb)]
    · intro a ha b hb
      rw [rank_eq_two_of_unknown (hunk b hb)]
      exact rank_le_two a
  · rw [List.filter_append, List.filter_append]
    have e1 : (rows.filter (fun r => isNonFollower r && isEligible r)).filter
        isNonFollower = rows.filter (fun r => isNonFollower r && isEligible r) :=
      List.filter_eq_self.mpr hnf
    have e2 : (rows.filter (fun r => isMutual r && isEligible r)).filter
        isNonFollower = [] :=
      List.filter_eq_nil_iff.mpr fun a ha => by simp [notNf_of_mut (hmut a ha)]
    have e3 : (rows.filter (fun r => isUnknownFY r && isEligible r)).filter
        isNonFollower = [] :=
      List.filter_eq_nil_iff.mpr fun a ha => by simp [(unknown_split (hunk a ha)).1]
    rw [e1, e2, e3, List.append_nil, List.append_nil]
    exact List.filter_congr fun x _ => Bool.and_comm _ _
  · rw [List.filter_append, List.filter_append]
    have e1 : (rows.filter (fun r => isNonFollower r && isEligible r)).filter
        isMutual = [] :=
      List.filter_eq_nil_iff.mpr fun a ha => by simp [notMut_of_nf (hnf a ha)]
    have e2 : (rows.filter (fun r => isMutual r && isEligible r)).filter
        isMutual = rows.filter (fun r => isMutual r && isEligible r) :=
      List.filter_eq_self.mpr hmut
    have e3 : (rows.filter (fun r => isUnknownFY r && isEligible r)).filter
        isMutual = [] :=
      List.filter_eq_nil_iff.mpr fun a ha => by simp [(unknown_split (hunk a ha)).2]
    rw [e1, e2, e3, List.nil_append, List.append_nil]
    exact List.filter_congr fun x _ => Bool.and_comm _ _
  · rw [List.filter_append, List.filter_append]
    have e1 : (rows.filter (fun r => isNonFollower r && isEligible r)).filter
        isUnknownFY = [] :=
      List.filter_eq_nil_iff.mpr fun a ha => by simp [notUnknown_of_nf (hnf a ha)]
    have e2 : (rows.filter (fun r => isMutual r && isEligible r)).filter
        isUnknownFY = [] :=
      List.filter_eq_nil_iff.mpr fun a ha => by simp [notUnknown_of_mut (hmut a ha)]
    have e3 : (rows.filter (fun r => isUnknownFY r && isEligible r)).filter
        isUnknownFY = rows.filter (fun r => isUnknownFY r && isEligible r) :=
      List.filter_eq_self.mpr hunk
    rw [e1, e2, e3, List.nil_append, List.nil_append]
    exact List.filter_congr fun x _ => Bool.and_comm _ _

/-- C6: when the remaining budget is not positive, `run_unfollow` stops
with the limit-reached signal, no row mutation, no actuation call and no
save; when the budget is positive but no rows are eligible for the mode,
it stops with the distinct nothing-to-do signal, again with no mutation,
actuation or save; the two signals differ. -/
theorem run_unfollow_empty_cases (limit : Int) (today : String)
    (env : Nat → StepEnv) (dry_run : Bool) (mode : Mode) (rows : List Row) :
    (limit - (count_unfollowed_today today rows : Int) ≤ 0 →
      run_unfollow limit today env dry_run mode rows
        = ⟨rows, RunSignal.limitReached, 0, 0, []⟩) ∧
    (0 < limit - (count_unfollowed_today today rows : Int) →
      selectTargets mode rows = [] →
      run_unfollow limit today env dry_run mode rows
        = ⟨rows, RunSignal.nothingToDo, 0, 0, []⟩) ∧
    RunSignal.limitReached ≠ RunSignal.nothingToDo := by
  refine ⟨?_, ?_, by decide⟩
  · intro h
    simp only [run_unfollow, if_pos h]
  · intro h hsel
    have hpairs : selectPairs mode rows = [] := by
      simpa only [selectTargets, List.map_eq_nil_iff] using hsel
    rw [run_unfollow]
    rw [if_neg (by omega), hpairs]
    rfl

/-- Witness for C6: an exhausted budget and an empty eligible set on
concrete ledgers. -/
theorem run_unfollow_empty_cases_witness :
    run_unfollow 0 "2026-10-12" envNone false Mode.all ([] : List Row)
      = ⟨[], RunSignal.limitReached, 0, 0, []⟩ ∧
    run_unfollow 5 "2026-10-12" envNone false Mode.nonFollowers [bobRow]
      = ⟨[bobRow], RunSignal.nothingToDo, 0, 0, []⟩ :=
  ⟨(run_unfollow_empty_cases 0 "2026-10-12" envNone false Mode.all []).1
      (by decide),
   (run_unfollow_empty_cases 5 "2026-10-12" envNone false Mode.nonFollowers
      [bobRow]).2.1 (by decide) (by decide)⟩

/-- C7: in dry-run mode `run_unfollow` leaves the ledger unchanged,
performs no actuation call and no save, and its printed enumeration is
exactly the truncated work queue annotated with the follows-you tag. -/
theorem run_unfollow_dry_run (limit : Int) (today : String)
    (env : Nat → StepEnv) (mode : Mode) (rows : List Row) :
    (run_unfollow limit today env true mode rows).rows = rows ∧
    (run_unfollow limit today env true mode rows).acts = 0 ∧
    (run_unfollow limit today env true mode rows).saves = 0 ∧
    (run_unfollow limit today env true mode rows).preview
      = ((selectPairs mode rows).take
          (limit - (count_unfollowed_today today rows : Int)).toNat).map
            (fun p => (p.2.username, followTag p.2)) := by
  rw [run_unfollow]
  by_cases h1 : limit - (count_unfollowed_today today rows : Int) ≤ 0
  · rw [if_pos h1, Int.toNat_of_nonpos h1]
    simp
  · rw [if_neg h1]
    by_cases h2 : (selectPairs mode rows).isEmpty
    · rw [if_pos h2]
      rw [List.isEmpty_iff.mp h2]
      simp
    · rw [if_neg h2]
      simp

theorem concatAll_append (a b : List String) :
    concatAll (a ++ b) = concatAll a ++ concatAll b := by
  induction a with
  | nil => simp [concatAll, String.empty_append]
  | cons x a ih =>
    simp only [List.cons_append, concatAll, List.foldr_cons] at *
    rw [ih, String.append_assoc]

/-- C8 counterexample: `save_csv` truncates the ledger file on open and
writes sequentially, so a crash right after the header write (one
completed chunk) leaves a file that is neither the previous complete
table (here the saved table of `[carolRow]`) nor the new complete table
of `[aliceRow]`. -/
theorem save_crash_not_atomic :
    fileAfterCrash [aliceRow] 1 ≠ fileAfterSave [carolRow] ∧
    fileAfterCrash [aliceRow] 1 ≠ fileAfterSave [aliceRow] := by
  constructor
  · intro h
    exact absurd h (by decide)
  · intro h
    exact absurd h (by decide)

/-- C8 amended: `save_csv` is not atomic; a crash after `k` completed
writes leaves exactly the first `k` chunks of the new table on disk — a
prefix of the new content (the old content is already gone) — and only
the completed save leaves the new complete table. -/
theorem save_crash_prefix (rows : List Row) (k : Nat) :
    fileAfterCrash rows k ++ concatAll ((saveChunks rows).drop k)
      = fileAfterSave rows ∧
    fileAfterCrash rows ((saveChunks rows).length) = fileAfterSave rows := by
  constructor
  · rw [fileAfterCrash, fileAfterSave, ← concatAll_append, List.take_append_drop]
  · rw [fileAfterCrash, fileAfterSave, List.take_length]

theorem runLoop_countP_le (env : Nat → StepEnv) (p : Row → Bool) :
    ∀ (idxs : List Nat) (rows : List Row) (k : Nat),
      ((runLoop env rows idxs k).rows).countP p ≤ rows.countP p + idxs.length := by
  intro idxs
  induction idxs with
  | nil => intro rows k; simp [runLoop]
  | cons i rest ih =>
    intro rows k
    rw [runLoop]
    cases hact : (env k).act with
    | ok result =>
      simp only
      have h1 := ih (rows.set i (applyResult (env k).ts result (rows.getD i default)))
        (k + 1)
      have h2 := countP_set_le p rows i
        (applyResult (env k).ts result (rows.getD i default))
      simp only [List.length_cons]
      omega
    | keyboardInterrupt =>
      simp only [List.length_cons]
      omega
    | error =>
      by_cases hlo : (env k).loggedOut
      · simp only [hlo, if_true, List.length_cons]
        have h2 := countP_set_le p rows i (markSkipped (env k).ts (rows.getD i default))
        omega
      · simp only [hlo, Bool.false_eq_true, if_false, List.length_cons]
        have h1 := ih (rows.set i (markSkipped (env k).ts (rows.getD i default))) (k + 1)
        have h2 := countP_set_le p rows i (markSkipped (env k).ts (rows.getD i default))
        omega

/-- C2: on a ledger whose eligible rows (blank or `unfollow` status) are
not yet stamped with today's date, a run of `run_unfollow` grows the
number of `unfollowed` rows by at most `max(0, limit − already_today)`,
and the number of rows counting against today's budget never exceeds the
daily limit afterwards (provided it did not exceed it before).  Because
the step environment is universally quantified, every intermediate state
of a run is also the final state of some run (an environment that
interrupts there), so the bound also holds during a run. -/
theorem run_unfollow_daily_limit (limit : Int) (today : String)
    (env : Nat → StepEnv) (dry_run : Bool) (mode : Mode) (rows : List Row)
    (helig : ∀ r ∈ rows, (r.status = "" ∨ r.status = STATUS_UNFOLLOW) →
      r.date_unfollowed = "" ∨ pyStartsWith r.date_unfollowed today = false)
    (hinit : (count_unfollowed_today today rows : Int) ≤ limit) :
    ((run_unfollow limit today env dry_run mode rows).rows.countP
        (fun r => r.status == STATUS_UNFOLLOWED) : Int)
      ≤ (rows.countP (fun r => r.status == STATUS_UNFOLLOWED) : Int)
        + max (limit - (count_unfollowed_today today rows : Int)) 0 ∧
    (count_unfollowed_today today
        (run_unfollow limit today env dry_run mode rows).rows : Int) ≤ limit := by
  rw [run_unfollow]
  by_cases h1 : limit - (count_unfollowed_today today rows : Int) ≤ 0
  · rw [if_pos h1]
    exact ⟨by simp only; omega, by simpa using hinit⟩
  · rw [if_neg h1]
    by_cases h2 : (selectPairs mode rows).isEmpty
    · rw [if_pos h2]
      exact ⟨by simp only; omega, by simpa using hinit⟩
    · rw [if_neg h2]
      by_cases h3 : dry_run
      · rw [if_pos h3]
        exact ⟨by simp only; omega, by simpa using hinit⟩
      · rw [if_neg h3]
        have htn : (((limit - (count_unfollowed_today today rows : Int)).toNat : Int))
            = limit - (count_unfollowed_today today rows : Int) :=
          Int.toNat_of_nonneg (by omega)
        have hlen : (((selectPairs mode rows).take
              (limit - (count_unfollowed_today today rows : Int)).toNat).map
                Prod.fst).length
            ≤ (limit - (count_unfollowed_today today rows : Int)).toNat := by
          simp only [List.length_map, List.length_take]
          exact Nat.min_le_left _ _
        constructor
        · have hb := runLoop_countP_le env (fun r => r.status == STATUS_UNFOLLOWED)
            (((selectPairs mode rows).take
              (limit - (count_unfollowed_today today rows : Int)).toNat).map
                Prod.fst) rows 0
          omega
        · have hb' : count_unfollowed_today today
              (runLoop env rows
                (((selectPairs mode rows).take
                  (limit - (count_unfollowed_today today rows : Int)).toNat).map
                    Prod.fst) 0).rows
              ≤ count_unfollowed_today today rows
                + (((selectPairs mode rows).take
                    (limit - (count_unfollowed_today today rows : Int)).toNat).map
                      Prod.fst).length :=
            runLoop_countP_le env
              (fun r => r.status == STATUS_UNFOLLOWED
                && pyStartsWith r.date_unfollowed today)
              (((selectPairs mode rows).take
                (limit - (count_unfollowed_today today rows : Int)).toNat).map
                  Prod.fst) rows 0
          omega

/-- Witness for C2 on the spec's three-row scenario ledger with limit 2. -/
theorem run_unfollow_daily_limit_witness :
    ((run_unfollow 2 "2026-10-12" envNone false Mode.all demoRows).rows.countP
        (fun r => r.status == STATUS_UNFOLLOWED) : Int)
      ≤ (demoRows.countP (fun r => r.status == STATUS_UNFOLLOWED) : Int)
        + max (2 - (count_unfollowed_today "2026-10-12" demoRows : Int)) 0 ∧
    (count_unfollowed_today "2026-10-12"
        (run_unfollow 2 "2026-10-12" envNone false Mode.all demoRows).rows
      : Int) ≤ 2 :=
  run_unfollow_daily_limit 2 "2026-10-12" envNone false Mode.all demoRows
    (by decide) (by decide)

theorem applyResult_date_or_eq (ts result : String) (r : Row) :
    (applyResult ts result r).date_unfollowed = ts ∨ applyResult ts result r = r := by
  unfold applyResult
  repeat' split
  all_goals first | exact Or.inl rfl | exact Or.inr rfl

theorem rowInv_getD (rows : List Row) (h : ∀ r ∈ rows, RowInv r) (i : Nat) :
    RowInv (rows.getD i default) := by
  rw [List.getD_eq_get?]
  cases hg : rows.get? i with
  | none =>
    simp only [Option.getD_none]
    intro hst
    rcases hst with hst | hst <;> exact absurd hst (by decide)
  | some a =>
    simp only [Option.getD_some]
    exact h a (List.get?_mem hg)

theorem rowInv_applyResult {ts result : String} (hts : ts ≠ "") {r : Row}
    (hr : RowInv r) : RowInv (applyResult ts result r) := by
  rcases applyResult_date_or_eq ts result r with hd | he
  · intro _
    rw [hd]
    exact hts
  · rw [he]
    exact hr

theorem rowInv_markSkipped {ts : String} (hts : ts ≠ "") (r : Row) :
    RowInv (markSkipped ts r) := by
  intro _
  exact hts

theorem runLoop_rowInv (env : Nat → StepEnv) (hts : ∀ k, (env k).ts ≠ "") :
    ∀ (idxs : List Nat) (rows : List Row) (k : Nat),
      (∀ r ∈ rows, RowInv r) → ∀ r ∈ (runLoop env rows idxs k).rows, RowInv r := by
  intro idxs
  induction idxs with
  | nil =>
    intro rows k h
    simpa [runLoop] using h
  | cons i rest ih =>
    intro rows k h
    rw [runLoop]
    cases hact : (env k).act with
    | ok result =>
      simp only
      apply ih
      intro r hr
      rcases List.mem_or_eq_of_mem_set hr with hmem | heq
      · exact h r hmem
      · subst heq
        exact rowInv_applyResult (hts k) (rowInv_getD rows h i)
    | keyboardInterrupt =>
      simpa using h
    | error =>
      by_cases hlo : (env k).loggedOut
      · simp only [hlo, if_true]
        intro r hr
        rcases List.mem_or_eq_of_mem_set hr with hmem | heq
        · exact h r hmem
        · subst heq
          exact rowInv_markSkipped (hts k) _
      · simp only [hlo, Bool.false_eq_true, if_false]
        apply ih
        intro r hr
        rcases List.mem_or_eq_of_mem_set hr with hmem | heq
        · exact h r hmem
        · subst heq
          exact rowInv_markSkipped (hts k) _

/-- C5: the outcome-to-ledger mapping — `success` and
`already_unfollowed` mark the row `unfollowed`, `not_found` and
`dialog_failed` mark it `skipped`, an unexpected exception marks it
`skipped`, and all five stamp `date_unfollowed` with the (non-empty)
current timestamp; consequently a run preserves the ledger invariant
that every `unfollowed` or `skipped` row has `date_unfollowed` set. -/
theorem outcome_mapping (ts : String) (hts : ts ≠ "") (r : Row)
    (limit : Int) (today : String) (env : Nat → StepEnv) (dry_run : Bool)
    (mode : Mode) (rows : List Row)
    (henv : ∀ k, (env k).ts ≠ "") (hrows : ∀ x ∈ rows, RowInv x) :
    (applyResult ts "success" r).status = STATUS_UNFOLLOWED ∧
    (applyResult ts "already_unfollowed" r).status = STATUS_UNFOLLOWED ∧
    (applyResult ts "not_found" r).status = STATUS_SKIPPED ∧
    (applyResult ts "dialog_failed" r).status = STATUS_SKIPPED ∧
    (markSkipped ts r).status = STATUS_SKIPPED ∧
    (applyResult ts "success" r).date_unfollowed = ts ∧
    (applyResult ts "already_unfollowed" r).date_unfollowed = ts ∧
    (applyResult ts "not_found" r).date_unfollowed = ts ∧
    (applyResult ts "dialog_failed" r).date_unfollowed = ts ∧
    (markSkipped ts r).date_unfollowed = ts ∧
    (∀ x ∈ (run_unfollow limit today env dry_run mode rows).rows, RowInv x) := by
  refine ⟨rfl, rfl, rfl, rfl, rfl, rfl, rfl, rfl, rfl, rfl, ?_⟩
  rw [run_unfollow]
  by_cases h1 : limit - (count_unfollowed_today today rows : Int) ≤ 0
  · rw [if_pos h1]
    exact hrows
  · rw [if_neg h1]
    by_cases h2 : (selectPairs mode rows).isEmpty
    · rw [if_pos h2]
      exact hrows
    · rw [if_neg h2]
      by_cases h3 : dry_run
      · rw [if_pos h3]
        exact hrows
      · rw [if_neg h3]
        exact runLoop_rowInv env henv _ rows 0 hrows

/-- Witness for C5 at a concrete timestamp, row, environment and the
scenario ledger. -/
theorem outcome_mapping_witness :
    (applyResult "2026-10-12T10:00:00" "success" aliceRow).status = STATUS_UNFOLLOWED ∧
    (applyResult "2026-10-12T10:00:00" "already_unfollowed" aliceRow).status
      = STATUS_UNFOLLOWED ∧
    (applyResult "2026-10-12T10:00:00" "not_found" aliceRow).status = STATUS_SKIPPED ∧
    (applyResult "2026-10-12T10:00:00" "dialog_failed" aliceRow).status
      = STATUS_SKIPPED ∧
    (markSkipped "2026-10-12T10:00:00" aliceRow).status = STATUS_SKIPPED ∧
    (applyResult "2026-10-12T10:00:00" "success" aliceRow).date_unfollowed
      = "2026-10-12T10:00:00" ∧
    (applyResult "2026-10-12T10:00:00" "already_unfollowed" aliceRow).date_unfollowed
      = "2026-10-12T10:00:00" ∧
    (applyResult "2026-10-12T10:00:00" "not_found" aliceRow).date_unfollowed
      = "2026-10-12T10:00:00" ∧
    (applyResult "2026-10-12T10:00:00" "dialog_failed" aliceRow).date_unfollowed
      = "2026-10-12T10:00:00" ∧
    (markSkipped "2026-10-12T10:00:00" aliceRow).date_unfollowed
      = "2026-10-12T10:00:00" ∧
    (∀ x ∈ (run_unfollow 2 "2026-10-12" envNone false Mode.all demoRows).rows,
      RowInv x) :=
  outcome_mapping "2026-10-12T10:00:00" (by decide) aliceRow 2 "2026-10-12"
    envNone false Mode.all demoRows (fun _ => by show "2026-10-12T10:00:00" ≠ ""; decide) (by decide)

/-- C9 counterexample: with every actuation returning `"success"` while
the driver URL is a login page the whole time, `run_unfollow` still
processes every queued target and ends with normal completion — the
session-expiry check does not occur after targets whose actuation
returned normally. -/
theorem session_check_counterexample :
    (envAllOk 0).loggedOut = true ∧
    (run_unfollow 10 "2026-10-12" envAllOk false Mode.all
        [aliceRow, daveRow]).signal = RunSignal.completed ∧
    (run_unfollow 10 "2026-10-12" envAllOk false Mode.all
        [aliceRow, daveRow]).acts = 2 := by
  refine ⟨rfl, ?_, ?_⟩ <;> decide

/-- C9 amended: the session-expiry check happens only in the
unexpected-exception path — when a target's actuation raises and the
driver URL is a login page, the loop saves the skipped-marked ledger and
stops at once with the distinct session-expired signal; when every
actuation returns normally, the loop runs to the end of the queue and
reports normal completion regardless of the login state. -/
theorem session_check_on_error_only :
    (∀ (env : Nat → StepEnv) (rows : List Row) (i : Nat) (rest : List Nat)
        (k : Nat),
      (env k).act = StepAct.error → (env k).loggedOut = true →
      runLoop env rows (i :: rest) k
        = ⟨rows.set i (markSkipped (env k).ts (rows.getD i default)),
           RunSignal.sessionExpired, 1, 1, []⟩) ∧
    (∀ (env : Nat → StepEnv) (rows : List Row) (idxs : List Nat) (k : Nat),
      (∀ j : Nat, ∃ s : String, (env j).act = StepAct.ok s) →
      (runLoop env rows idxs k).signal = RunSignal.completed ∧
      (runLoop env rows idxs k).acts = idxs.length) := by
  constructor
  · intro env rows i rest k hact hlo
    rw [runLoop]
    rw [hact]
    simp only [hlo, if_true]
  · intro env rows idxs
    induction idxs generalizing rows with
    | nil =>
      intro k hok
      exact ⟨rfl, rfl⟩
    | cons i rest ih =>
      intro k hok
      obtain ⟨s, hs⟩ := hok k
      rw [runLoop, hs]
      simp only [List.length_cons]
      have h := ih (rows.set i (applyResult (env k).ts s (rows.getD i default)))
        (k + 1) hok
      exact ⟨h.1, by rw [h.2]⟩

/-- Witness for the C9 amended theorem: a logged-out exception stops the
loop with session expiry; an all-normal run completes the whole queue. -/
theorem session_check_on_error_only_witness :
    runLoop envErr [aliceRow] [0] 0
      = ⟨[aliceRow].set 0 (markSkipped (envErr 0).ts ([aliceRow].getD 0 default)),
         RunSignal.sessionExpired, 1, 1, []⟩ ∧
    (runLoop envAllOk [aliceRow, daveRow] [0, 1] 0).signal
      = RunSignal.completed ∧
    (runLoop envAllOk [aliceRow, daveRow] [0, 1] 0).acts = [0, 1].length :=
  ⟨session_check_on_error_only.1 envErr [aliceRow] 0 [] 0 rfl rfl,
   (session_check_on_error_only.2 envAllOk [aliceRow, daveRow] [0, 1] 0
      (fun _ => ⟨"success", rfl⟩)).1,
   (session_check_on_error_only.2 envAllOk [aliceRow, daveRow] [0, 1] 0
      (fun _ => ⟨"success", rfl⟩)).2⟩

/-- C10: once a `Following`/`Requested` control was found, the actuator
returns `"dialog_failed"` only if the scripted scan raises; whenever
`execute_script` returns normally the confirmation is treated as clicked
— the script's own found/not-found return value is discarded — and the
outcome is `"success"`. -/
theorem script_scan_no_dialog_failed (ui : Ui)
    (hfollowing : hasFollowingBtn ui = true)
    (hscript : ui.scriptThrows = false) :
    findAndClickUnfollow ui = "success" ∧
    (∀ ui2 : Ui, findAndClickUnfollow ui2 = "dialog_failed" →
      ui2.scriptThrows = true) ∧
    (∀ b : Bool,
      findAndClickUnfollow { ui with scriptFinds := b }
        = findAndClickUnfollow ui) := by
  refine ⟨?_, ?_, ?_⟩
  · rw [findAndClickUnfollow]
    rw [hfollowing, hscript]
    simp
  · intro ui2 hdf
    by_contra hns
    rw [Bool.not_eq_true] at hns
    rw [findAndClickUnfollow] at hdf
    by_cases hf : hasFollowingBtn ui2
    · rw [hf, hns] at hdf
      simp at hdf
    · rw [Bool.not_eq_true] at hf
      rw [hf] at hdf
      simp only [Bool.not_false, if_true] at hdf
      split at hdf <;> exact absurd hdf (by decide)
  · intro b
    rfl

/-- Witness for C10: a page with a `Following` button where neither
click strategy succeeds and the scripted scan returns normally having
found nothing still yields `"success"`. -/
theorem script_scan_no_dialog_failed_witness :
    findAndClickUnfollow uiScriptMiss = "success" ∧
    (∀ ui2 : Ui, findAndClickUnfollow ui2 = "dialog_failed" →
      ui2.scriptThrows = true) ∧
    (∀ b : Bool,
      findAndClickUnfollow { uiScriptMiss with scriptFinds := b }
        = findAndClickUnfollow uiScriptMiss) :=
  script_scan_no_dialog_failed uiScriptMiss (by decide) rfl
